import Mathlib

/-!
# Verification of the rust-beats effect-generation pipeline

A shallow embedding of `scripts/create_video.py`: seed derivation
(`generate_random_seed`, MD5-based), the effect parameter mapper
(`calculate_effects`), the duration probe wrapper (`get_audio_duration`)
and the filter-graph string built inside `create_video`, together with a
denotational model of the time-varying crop expressions that string
contains.  Python floats are modelled by exact rationals `ℚ` (every
constant in the source has an exact decimal value); machine integers by
`ℕ`/`ℤ`; the real-valued semantics of the crop expression (evaluated by
the media encoder over playback time `t`) by `ℝ`.
-/

/-- The effect parameter record returned by `calculate_effects` (a Python
dict with seven float-valued fields and one int-valued field).  The field
type is a parameter so that the filter-graph builder, which merely
interpolates the values into text, can be stated for any value type
(including a model of non-finite floats). -/
structure EffectParams (α : Type) where
  vibration_intensity : α
  vibration_freq : α
  shake_interval : α
  shake_duration : α
  brightness : α
  contrast : α
  saturation : α
  total_padding : ℤ
  deriving Repr, DecidableEq

/-- Parameters as produced by `calculate_effects`: exact-rational floats. -/
abbrev EffectParameters := EffectParams ℚ

/-- Python `int(x)` applied to a float: truncation toward zero. -/
def pyInt (q : ℚ) : ℤ := if 0 ≤ q then ⌊q⌋ else ⌈q⌉

/-- `calculate_effects(rand_seed)` from `scripts/create_video.py`:
each field is an affine function of a residue of the seed. -/
def calculate_effects (rand_seed : ℕ) : EffectParameters :=
  let vibration_intensity : ℚ := 0.5 + (rand_seed % 10 : ℕ) / 10
  let vibration_freq : ℚ := 2.0 + (rand_seed % 30 : ℕ) / 10
  let shake_interval : ℚ := 8.0 + (rand_seed % 100 : ℕ) / 10
  let shake_duration : ℚ := 0.10 + (rand_seed % 15 : ℕ) / 100
  let brightness : ℚ := 0.01 + (rand_seed % 20 : ℕ) / 1000
  let contrast : ℚ := 1.03 + (rand_seed % 40 : ℕ) / 1000
  let saturation : ℚ := 1.08 + (rand_seed % 40 : ℕ) / 1000
  let total_padding : ℤ := pyInt (vibration_intensity + 5)
  { vibration_intensity := vibration_intensity
    vibration_freq := vibration_freq
    shake_interval := shake_interval
    shake_duration := shake_duration
    brightness := brightness
    contrast := contrast
    saturation := saturation
    total_padding := total_padding }

/-- `get_audio_duration` from `scripts/create_video.py`.  The external
probe (`ffprobe` + `float(...)` parse) is passed in as its outcome:
`none` models the `CalledProcessError`/`ValueError` path, `some d` a
successfully parsed duration `d`. -/
def get_audio_duration (probe : Option ℚ) : ℚ :=
  match probe with
  | some duration => if duration > 0 then duration else 180.0
  | none => 180.0

/-- The spec table's bounds on every field of an `EffectParameters`. -/
def EffectInRange (p : EffectParameters) : Prop :=
  0.5 ≤ p.vibration_intensity ∧ p.vibration_intensity ≤ 1.4 ∧
  2.0 ≤ p.vibration_freq ∧ p.vibration_freq ≤ 4.9 ∧
  8.0 ≤ p.shake_interval ∧ p.shake_interval ≤ 17.9 ∧
  0.10 ≤ p.shake_duration ∧ p.shake_duration ≤ 0.24 ∧
  0.010 ≤ p.brightness ∧ p.brightness ≤ 0.029 ∧
  1.030 ≤ p.contrast ∧ p.contrast ≤ 1.069 ∧
  1.080 ≤ p.saturation ∧ p.saturation ≤ 1.119 ∧
  (p.total_padding = 5 ∨ p.total_padding = 6)

lemma ce_vibration_intensity (s : ℕ) :
    (calculate_effects s).vibration_intensity = 0.5 + (s % 10 : ℕ) / 10 := rfl

lemma ce_vibration_freq (s : ℕ) :
    (calculate_effects s).vibration_freq = 2.0 + (s % 30 : ℕ) / 10 := rfl

lemma ce_shake_interval (s : ℕ) :
    (calculate_effects s).shake_interval = 8.0 + (s % 100 : ℕ) / 10 := rfl

lemma ce_shake_duration (s : ℕ) :
    (calculate_effects s).shake_duration = 0.10 + (s % 15 : ℕ) / 100 := rfl

lemma ce_brightness (s : ℕ) :
    (calculate_effects s).brightness = 0.01 + (s % 20 : ℕ) / 1000 := rfl

lemma ce_contrast (s : ℕ) :
    (calculate_effects s).contrast = 1.03 + (s % 40 : ℕ) / 1000 := rfl

lemma ce_saturation (s : ℕ) :
    (calculate_effects s).saturation = 1.08 + (s % 40 : ℕ) / 1000 := rfl

lemma ce_total_padding (s : ℕ) :
    (calculate_effects s).total_padding = pyInt (0.5 + (s % 10 : ℕ) / 10 + 5) := rfl

lemma modq_nonneg (s m : ℕ) : (0 : ℚ) ≤ ((s % m : ℕ) : ℚ) := by positivity

lemma modq_le (s m : ℕ) (c : ℚ) (h : ((m - 1 : ℕ) : ℚ) ≤ c) (hm : 0 < m) :
    ((s % m : ℕ) : ℚ) ≤ c := by
  have h2 : s % m ≤ m - 1 := by
    have := Nat.mod_lt s hm
    omega
  have h3 : ((s % m : ℕ) : ℚ) ≤ ((m - 1 : ℕ) : ℚ) := by exact_mod_cast h2
  linarith

lemma pyInt_eq_of (q : ℚ) (n : ℤ) (h0 : 0 ≤ q) (h1 : (n : ℚ) ≤ q) (h2 : q < n + 1) :
    pyInt q = n := by
  rw [pyInt, if_pos h0, Int.floor_eq_iff]
  exact ⟨h1, h2⟩

/-- `total_padding` is 5 exactly when the last decimal digit of the seed
is at most 4, and 6 otherwise. -/
lemma ce_total_padding_eq (s : ℕ) :
    (calculate_effects s).total_padding = if s % 10 ≤ 4 then 5 else 6 := by
  rw [ce_total_padding]
  rcases le_or_lt (s % 10) 4 with hk | hk
  · rw [if_pos hk]
    have hc : ((s % 10 : ℕ) : ℚ) ≤ 4 := by exact_mod_cast hk
    have hc0 : (0 : ℚ) ≤ ((s % 10 : ℕ) : ℚ) := modq_nonneg s 10
    exact pyInt_eq_of _ 5 (by linarith) (by push_cast; linarith) (by push_cast; linarith)
  · rw [if_neg (by omega)]
    have hc : (5 : ℚ) ≤ ((s % 10 : ℕ) : ℚ) := by exact_mod_cast hk
    have hc2 : ((s % 10 : ℕ) : ℚ) ≤ 9 := modq_le s 10 9 (by norm_num) (by norm_num)
    exact pyInt_eq_of _ 6 (by linarith) (by push_cast; linarith) (by push_cast; linarith)

/-- Every seed maps into the spec table's ranges (shared helper). -/
lemma calculate_effects_in_range (s : ℕ) : EffectInRange (calculate_effects s) := by
  have h10 : ((s % 10 : ℕ) : ℚ) ≤ 9 := modq_le s 10 9 (by norm_num) (by norm_num)
  have h30 : ((s % 30 : ℕ) : ℚ) ≤ 29 := modq_le s 30 29 (by norm_num) (by norm_num)
  have h100 : ((s % 100 : ℕ) : ℚ) ≤ 99 := modq_le s 100 99 (by norm_num) (by norm_num)
  have h15 : ((s % 15 : ℕ) : ℚ) ≤ 14 := modq_le s 15 14 (by norm_num) (by norm_num)
  have h20 : ((s % 20 : ℕ) : ℚ) ≤ 19 := modq_le s 20 19 (by norm_num) (by norm_num)
  have h40 : ((s % 40 : ℕ) : ℚ) ≤ 39 := modq_le s 40 39 (by norm_num) (by norm_num)
  have g10 := modq_nonneg s 10
  have g30 := modq_nonneg s 30
  have g100 := modq_nonneg s 100
  have g15 := modq_nonneg s 15
  have g20 := modq_nonneg s 20
  have g40 := modq_nonneg s 40
  refine ⟨?_, ?_, ?_, ?_, ?_, ?_, ?_, ?_, ?_, ?_, ?_, ?_, ?_, ?_, ?_⟩
  · rw [ce_vibration_intensity]; linarith
  · rw [ce_vibration_intensity]; linarith
  · rw [ce_vibration_freq]; linarith
  · rw [ce_vibration_freq]; linarith
  · rw [ce_shake_interval]; linarith
  · rw [ce_shake_interval]; linarith
  · rw [ce_shake_duration]; linarith
  · rw [ce_shake_duration]; linarith
  · rw [ce_brightness]; linarith
  · rw [ce_brightness]; linarith
  · rw [ce_contrast]; linarith
  · rw [ce_contrast]; linarith
  · rw [ce_saturation]; linarith
  · rw [ce_saturation]; linarith
  · rw [ce_total_padding_eq]
    rcases le_or_lt (s % 10) 4 with hk | hk
    · exact Or.inl (by rw [if_pos hk])
    · exact Or.inr (by rw [if_neg (by omega)])

/-- **C1.** For every non-negative integer seed, every field of
`calculate_effects seed` lies within the spec table's bounds
(`vibration_intensity ∈ [0.5, 1.4]`, `vibration_freq ∈ [2.0, 4.9]`,
`shake_interval ∈ [8.0, 17.9]`, `shake_duration ∈ [0.10, 0.24]`,
`brightness ∈ [0.010, 0.029]`, `contrast ∈ [1.030, 1.069]`,
`saturation ∈ [1.080, 1.119]`, `total_padding ∈ {5, 6}`); in particular
the boundary seeds `0` and `2^32 - 1` produce in-range parameter sets. -/
theorem claim_C1_effects_in_range :
    (∀ s : ℕ, EffectInRange (calculate_effects s)) ∧
    EffectInRange (calculate_effects 0) ∧
    EffectInRange (calculate_effects (2 ^ 32 - 1)) :=
  ⟨calculate_effects_in_range, calculate_effects_in_range 0,
    calculate_effects_in_range (2 ^ 32 - 1)⟩

/-- **C9.** `calculate_effects 0` succeeds and produces every field at its
range minimum: `⟨0.5, 2.0, 8.0, 0.10, 0.010, 1.030, 1.080, 5⟩`. -/
theorem claim_C9_seed_zero_minima :
    calculate_effects 0 =
      { vibration_intensity := 0.5, vibration_freq := 2.0, shake_interval := 8.0,
        shake_duration := 0.10, brightness := 0.010, contrast := 1.030,
        saturation := 1.080, total_padding := 5 } := by
  simp only [calculate_effects, EffectParams.mk.injEq]
  norm_num
  rw [pyInt_eq_of _ 5 (by norm_num) (by norm_num) (by norm_num)]

/-- **C10.** `calculate_effects` depends on the seed only through its
residues modulo 10, 30, 100, 15, 20 and 40, so it is periodic with period
600 (the least common multiple of those moduli):
`calculate_effects (s + 600) = calculate_effects s` for all `s`. -/
theorem claim_C10_period_600 (s : ℕ) :
    calculate_effects (s + 600) = calculate_effects s := by
  have h10 : (s + 600) % 10 = s % 10 := by omega
  have h30 : (s + 600) % 30 = s % 30 := by omega
  have h100 : (s + 600) % 100 = s % 100 := by omega
  have h15 : (s + 600) % 15 = s % 15 := by omega
  have h20 : (s + 600) % 20 = s % 20 := by omega
  have h40 : (s + 600) % 40 = s % 40 := by omega
  simp only [calculate_effects, h10, h30, h100, h15, h20, h40]

/-- **C4.** `get_audio_duration` never propagates an error: for every
probe outcome it either returns the probed positive duration or the fixed
fallback `180.0` (in particular, on any probe error — `none` — it returns
`180.0`). -/
theorem claim_C4_duration_fallback (probe : Option ℚ) :
    get_audio_duration none = 180.0 ∧
    (get_audio_duration probe = 180.0 ∨
      (∃ d : ℚ, probe = some d ∧ 0 < d ∧ get_audio_duration probe = d)) := by
  refine ⟨rfl, ?_⟩
  match probe with
  | none => exact Or.inl rfl
  | some d =>
      by_cases h : d > 0
      · exact Or.inr ⟨d, rfl, h, by simp [get_audio_duration, h]⟩
      · exact Or.inl (by simp [get_audio_duration, h])

/-! ## Seed derivation: `generate_random_seed` (MD5 of the filename)

`hashlib.md5(filename.encode()).hexdigest()[:8]` parsed base 16, with a
fallback of `12345` on a `ValueError`.  MD5 is embedded in full
(RFC 1321): `md5` maps a byte list to the 16-byte digest, `hexdigest`
renders it as 32 lowercase hex characters. -/

/-- `2^32`, the word size of MD5 arithmetic. -/
def w32 : ℕ := 4294967296

/-- Bitwise complement on a 32-bit word. -/
def compl32 (x : ℕ) : ℕ := x ^^^ (w32 - 1)

/-- Rotate a 32-bit word left by `n`. -/
def rotl32 (x n : ℕ) : ℕ := ((x <<< n) % w32) ||| (x >>> (32 - n))

/-- The 64 MD5 round constants `⌊|sin(i+1)| · 2^32⌋`. -/
def md5K : List ℕ :=
  [0xd76aa478, 0xe8c7b756, 0x242070db, 0xc1bdceee,
   0xf57c0faf, 0x4787c62a, 0xa8304613, 0xfd469501,
   0x698098d8, 0x8b44f7af, 0xffff5bb1, 0x895cd7be,
   0x6b901122, 0xfd987193, 0xa679438e, 0x49b40821,
   0xf61e2562, 0xc040b340, 0x265e5a51, 0xe9b6c7aa,
   0xd62f105d, 0x02441453, 0xd8a1e681, 0xe7d3fbc8,
   0x21e1cde6, 0xc33707d6, 0xf4d50d87, 0x455a14ed,
   0xa9e3e905, 0xfcefa3f8, 0x676f02d9, 0x8d2a4c8a,
   0xfffa3942, 0x8771f681, 0x6d9d6122, 0xfde5380c,
   0xa4beea44, 0x4bdecfa9, 0xf6bb4b60, 0xbebfbc70,
   0x289b7ec6, 0xeaa127fa, 0xd4ef3085, 0x04881d05,
   0xd9d4d039, 0xe6db99e5, 0x1fa27cf8, 0xc4ac5665,
   0xf4292244, 0x432aff97, 0xab9423a7, 0xfc93a039,
   0x655b59c3, 0x8f0ccc92, 0xffeff47d, 0x85845dd1,
   0x6fa87e4f, 0xfe2ce6e0, 0xa3014314, 0x4e0811a1,
   0xf7537e82, 0xbd3af235, 0x2ad7d2bb, 0xeb86d391]

/-- The 64 MD5 per-round left-rotation amounts. -/
def md5S : List ℕ :=
  [7, 12, 17, 22, 7, 12, 17, 22, 7, 12, 17, 22, 7, 12, 17, 22,
   5, 9, 14, 20, 5, 9, 14, 20, 5, 9, 14, 20, 5, 9, 14, 20,
   4, 11, 16, 23, 4, 11, 16, 23, 4, 11, 16, 23, 4, 11, 16, 23,
   6, 10, 15, 21, 6, 10, 15, 21, 6, 10, 15, 21, 6, 10, 15, 21]

/-- The `n` little-endian bytes of `v`. -/
def leBytes (n v : ℕ) : List ℕ := (List.range n).map (fun i => v / 2 ^ (8 * i) % 256)

/-- A little-endian 32-bit word from a list of bytes. -/
def leWord (bs : List ℕ) : ℕ := bs.foldr (fun b acc => b + 256 * acc) 0

/-- The sixteen 32-bit message words of a 64-byte chunk. -/
def chunkWords (chunk : List ℕ) : List ℕ :=
  (List.range 16).map (fun i => leWord ((chunk.drop (4 * i)).take 4))

/-- MD5 padding: `0x80`, zeros to 56 mod 64, then the bit length as a
little-endian 64-bit integer. -/
def md5Pad (msg : List ℕ) : List ℕ :=
  let padLen := (119 - (msg.length % 64)) % 64
  msg ++ [0x80] ++ List.replicate padLen 0 ++ leBytes 8 ((msg.length * 8) % 2 ^ 64)

/-- Split a byte list into 64-byte chunks. -/
def toChunks64 : List ℕ → List (List ℕ)
  | [] => []
  | b :: bs => ((b :: bs).take 64) :: toChunks64 ((b :: bs).drop 64)
termination_by bs => bs.length
decreasing_by simp; omega

/-- One of the 64 MD5 rounds on state `(A, B, C, D)`. -/
def md5Round (M : List ℕ) (st : ℕ × ℕ × ℕ × ℕ) (i : ℕ) : ℕ × ℕ × ℕ × ℕ :=
  let A := st.1
  let B := st.2.1
  let C := st.2.2.1
  let D := st.2.2.2
  let F :=
    if i < 16 then (B &&& C) ||| (compl32 B &&& D)
    else if i < 32 then (D &&& B) ||| (compl32 D &&& C)
    else if i < 48 then B ^^^ C ^^^ D
    else C ^^^ (B ||| compl32 D)
  let g :=
    if i < 16 then i
    else if i < 32 then (5 * i + 1) % 16
    else if i < 48 then (3 * i + 5) % 16
    else (7 * i) % 16
  let F2 := (F + A + md5K.getD i 0 + M.getD g 0) % w32
  (D, (B + rotl32 F2 (md5S.getD i 0)) % w32, B, C)

/-- Process one 64-byte chunk: 64 rounds, then add into the state. -/
def md5Chunk (st : ℕ × ℕ × ℕ × ℕ) (chunk : List ℕ) : ℕ × ℕ × ℕ × ℕ :=
  let M := chunkWords chunk
  let r := (List.range 64).foldl (md5Round M) st
  ((st.1 + r.1) % w32, (st.2.1 + r.2.1) % w32,
   (st.2.2.1 + r.2.2.1) % w32, (st.2.2.2 + r.2.2.2) % w32)

/-- The MD5 digest (16 bytes) of a byte list. -/
def md5 (msg : List ℕ) : List ℕ :=
  let st := (toChunks64 (md5Pad msg)).foldl md5Chunk
    (0x67452301, 0xefcdab89, 0x98badcfe, 0x10325476)
  leBytes 4 st.1 ++ leBytes 4 st.2.1 ++ leBytes 4 st.2.2.1 ++ leBytes 4 st.2.2.2

/-- The sixteen lowercase hexadecimal digits. -/
def hexChars : List Char := String.data "0123456789abcdef"

/-- A byte as two lowercase hex characters (Python `%02x`). -/
def byteToHex (b : ℕ) : List Char :=
  [hexChars.getD (b / 16 % 16) '0', hexChars.getD (b % 16) '0']

/-- `hexdigest`: each digest byte as two lowercase hex characters. -/
def hexdigest : List ℕ → List Char
  | [] => []
  | b :: bs => byteToHex b ++ hexdigest bs

/-- `filename.encode()`: the UTF-8 bytes of the string. -/
def utf8Bytes (s : String) : List ℕ := s.toUTF8.toList.map (fun b => b.toNat)

/-- The value of a hexadecimal digit character, if it is one. -/
def hexVal? (c : Char) : Option ℕ :=
  if '0' ≤ c ∧ c ≤ '9' then some (c.toNat - '0'.toNat)
  else if 'a' ≤ c ∧ c ≤ 'f' then some (c.toNat - 'a'.toNat + 10)
  else if 'A' ≤ c ∧ c ≤ 'F' then some (c.toNat - 'A'.toNat + 10)
  else none

/-- Accumulating base-16 parse; fails on the first non-hex character. -/
def int16Aux : List Char → ℕ → Option ℕ
  | [], acc => some acc
  | c :: cs, acc =>
    match hexVal? c with
    | some v => int16Aux cs (16 * acc + v)
    | none => none

/-- Python `int(s, 16)` on a digit string: a `ValueError` (modelled as
`none`) on an empty string or any non-hex character. -/
def int16? (cs : List Char) : Option ℕ :=
  if cs.isEmpty then none else int16Aux cs 0

/-- `hashlib.md5(filename.encode()).hexdigest()` as a character list. -/
def md5_hexdigest (s : String) : List Char := hexdigest (md5 (utf8Bytes s))

/-- `generate_random_seed` from `scripts/create_video.py`: parse the
first 8 hex digits of the MD5 hexdigest, falling back to `12345` on a
`ValueError`. -/
def generate_random_seed (filename : String) : ℕ :=
  let hash_hex := (md5_hexdigest filename).take 8
  match int16? hash_hex with
  | some v => v
  | none => 12345

lemma length_leBytes (n v : ℕ) : (leBytes n v).length = n := by
  simp [leBytes]

lemma length_md5 (msg : List ℕ) : (md5 msg).length = 16 := by
  simp [md5, length_leBytes]

lemma length_hexdigest (bs : List ℕ) : (hexdigest bs).length = 2 * bs.length := by
  induction bs with
  | nil => simp [hexdigest]
  | cons b bs ih => simp [hexdigest, byteToHex, ih]; ring

lemma hexVal_isSome_of_mem_hexChars {c : Char} (h : c ∈ hexChars) : (hexVal? c).isSome := by
  revert c
  decide

lemma getD_mem_hexChars (n : ℕ) : hexChars.getD n '0' ∈ hexChars := by
  rcases Nat.lt_or_ge n hexChars.length with h | h
  · rw [List.getD_eq_getElem _ _ h]
    exact List.getElem_mem h
  · rw [List.getD_eq_default _ _ h]
    decide

/-- Every character `hexdigest` emits is a hexadecimal digit. -/
lemma mem_hexdigest_hex {c : Char} {bs : List ℕ} (h : c ∈ hexdigest bs) :
    (hexVal? c).isSome := by
  induction bs with
  | nil => simp [hexdigest] at h
  | cons b bs ih =>
      simp only [hexdigest, byteToHex, List.mem_append] at h
      rcases h with h | h
      · simp only [List.mem_cons, List.mem_singleton] at h
        rcases h with rfl | h
        · exact hexVal_isSome_of_mem_hexChars (getD_mem_hexChars _)
        · rcases h with rfl | h
          · exact hexVal_isSome_of_mem_hexChars (getD_mem_hexChars _)
          · simp at h
      · exact ih h

/-- A base-16 parse of hex digits succeeds, with an explicit bound. -/
lemma int16Aux_lt (cs : List Char) (acc : ℕ) (h : ∀ c ∈ cs, (hexVal? c).isSome) :
    ∃ v, int16Aux cs acc = some v ∧ v < 16 ^ cs.length * (acc + 1) := by
  induction cs generalizing acc with
  | nil => exact ⟨acc, rfl, by simp⟩
  | cons c cs ih =>
      have hc : (hexVal? c).isSome := h c (List.mem_cons_self c cs)
      obtain ⟨hv, hhv⟩ := Option.isSome_iff_exists.mp hc
      have hv15 : hv ≤ 15 := by
        have e0 : '0'.toNat = 48 := rfl
        have e9 : '9'.toNat = 57 := rfl
        have ea : 'a'.toNat = 97 := rfl
        have ef : 'f'.toNat = 102 := rfl
        have eA : 'A'.toNat = 65 := rfl
        have eF : 'F'.toNat = 70 := rfl
        rw [hexVal?] at hhv
        split at hhv
        · rename_i hh
          have h9 : c.toNat ≤ '9'.toNat := hh.2
          simp only [Option.some.injEq] at hhv
          omega
        · split at hhv
          · rename_i hh
            have h9 : c.toNat ≤ 'f'.toNat := hh.2
            have h0 : 'a'.toNat ≤ c.toNat := hh.1
            simp only [Option.some.injEq] at hhv
            omega
          · split at hhv
            · rename_i hh
              have h9 : c.toNat ≤ 'F'.toNat := hh.2
              have h0 : 'A'.toNat ≤ c.toNat := hh.1
              simp only [Option.some.injEq] at hhv
              omega
            · simp at hhv
      obtain ⟨v, hval, hbound⟩ := ih (16 * acc + hv) (fun c hc => h c (List.mem_cons_of_mem _ hc))
      refine ⟨v, ?_, ?_⟩
      · simp [int16Aux, hhv, hval]
      · calc v < 16 ^ cs.length * (16 * acc + hv + 1) := hbound
          _ ≤ 16 ^ cs.length * (16 * (acc + 1)) := by
              apply Nat.mul_le_mul_left
              omega
          _ = 16 ^ (c :: cs).length * (acc + 1) := by
              simp [List.length_cons, pow_succ]
              ring

/-- **C6.** `generate_random_seed` is total and returns a value in
`[0, 2^32 - 1]` for every string; the base-16 parse of the first 8 hex
characters of the digest always succeeds (so the `12345` fallback branch
is unreachable), and the function returns exactly the parsed value when
the parse succeeds and the constant `12345` only when it fails. -/
theorem claim_C6_seed_total (filename : String) :
    generate_random_seed filename ≤ 2 ^ 32 - 1 ∧
    (int16? ((md5_hexdigest filename).take 8)).isSome = true ∧
    generate_random_seed filename = (int16? ((md5_hexdigest filename).take 8)).getD 12345 := by
  have hlen : (md5_hexdigest filename).length = 32 := by
    rw [md5_hexdigest, length_hexdigest, length_md5]
  have hlen8 : ((md5_hexdigest filename).take 8).length = 8 := by
    rw [List.length_take, hlen]
    rfl
  have hmem : ∀ c ∈ (md5_hexdigest filename).take 8, (hexVal? c).isSome := fun c hc =>
    mem_hexdigest_hex (List.take_subset 8 _ hc)
  have hne : ((md5_hexdigest filename).take 8).isEmpty = false := by
    cases hl : ((md5_hexdigest filename).take 8).isEmpty
    · rfl
    · exfalso
      rw [List.isEmpty_iff.mp hl] at hlen8
      simp at hlen8
  obtain ⟨v, hval, hbound⟩ := int16Aux_lt ((md5_hexdigest filename).take 8) 0 hmem
  have hint : int16? ((md5_hexdigest filename).take 8) = some v := by
    rw [int16?, hne]
    simpa using hval
  have hgen : generate_random_seed filename = v := by
    rw [generate_random_seed]
    simp only [hint]
  rw [hlen8] at hbound
  refine ⟨?_, ?_, ?_⟩
  · rw [hgen]; omega
  · rw [hint]; rfl
  · rw [hgen, hint]; rfl

/-- no '[' or ']' anywhere in the string -/
def BracketFree (s : String) : Prop := ∀ c ∈ s.data, c ≠ '[' ∧ c ≠ ']'

instance (s : String) : Decidable (BracketFree s) := by
  unfold BracketFree
  infer_instance

def tokenScanSt : List Char → Option (List Char) → List String → Option (Option (List Char) × List String)
  | [], st, acc => some (st, acc)
  | c :: cs, none, acc =>
    if c = '[' then tokenScanSt cs (some []) acc
    else if c = ']' then none
    else tokenScanSt cs none acc
  | c :: cs, some cur, acc =>
    if c = ']' then tokenScanSt cs none (acc ++ [String.mk cur])
    else if c = '[' then none
    else tokenScanSt cs (some (cur ++ [c])) acc

/-- the bracket-delimited stream labels of a filter-graph string, in order;
`none` when brackets are unbalanced or nested -/
def streamLabels (s : String) : Option (List String) :=
  match tokenScanSt s.data none [] with
  | some (none, acc) => some acc
  | _ => none

def bracketDepth : List Char → ℤ → Option ℤ
  | [], d => some d
  | c :: cs, d =>
    if c = '[' then bracketDepth cs (d + 1)
    else if c = ']' then (if d ≤ 0 then none else bracketDepth cs (d - 1))
    else bracketDepth cs d

/-- every ']' matches an earlier '[', and all '[' are closed at the end -/
def BalancedBrackets (s : String) : Prop := bracketDepth s.data 0 = some 0

lemma tokenScanSt_append (a b : List Char) (st : Option (List Char)) (acc : List String) :
    tokenScanSt (a ++ b) st acc =
      (tokenScanSt a st acc).bind (fun r => tokenScanSt b r.1 r.2) := by
  induction a generalizing st acc with
  | nil => simp [tokenScanSt]
  | cons c cs ih =>
      cases st with
      | none =>
          by_cases h1 : c = '['
          · simp [tokenScanSt, h1, ih]
          · by_cases h2 : c = ']'
            · simp [tokenScanSt, h1, h2]
            · simp [tokenScanSt, h1, h2, ih]
      | some cur =>
          by_cases h1 : c = ']'
          · simp [tokenScanSt, h1, ih]
          · by_cases h2 : c = '['
            · simp [tokenScanSt, h1, h2]
            · simp [tokenScanSt, h1, h2, ih]

lemma bracketFree_scan (x : String) (hx : BracketFree x) :
    ∀ acc, tokenScanSt x.data none acc = some (none, acc) := by
  have h : ∀ (l : List Char), (∀ c ∈ l, c ≠ '[' ∧ c ≠ ']') →
      ∀ acc, tokenScanSt l none acc = some (none, acc) := by
    intro l
    induction l with
    | nil => intro _ acc; rfl
    | cons c cs ih =>
        intro h acc
        have hc := h c (List.mem_cons_self c cs)
        rw [tokenScanSt, if_neg hc.1, if_neg hc.2]
        exact ih (fun c hc => h c (List.mem_cons_of_mem _ hc)) acc
  exact h x.data hx

lemma suffix_append_right (a : List Char) {x b : List Char} (h : x <:+ b) : x <:+ a ++ b := by
  obtain ⟨t, rfl⟩ := h
  exact ⟨a ++ t, by simp⟩

lemma infix_append_right (a : List Char) {x b : List Char} (h : x <:+: b) : x <:+: a ++ b := by
  obtain ⟨s, t, rfl⟩ := h
  exact ⟨a ++ s, t, by simp⟩

def stDepth : Option (List Char) → ℤ
  | none => 0
  | some _ => 1

lemma scan_bracketDepth (l : List Char) :
    ∀ (st : Option (List Char)) (acc r : List String),
      tokenScanSt l st acc = some (none, r) → bracketDepth l (stDepth st) = some 0 := by
  induction l with
  | nil =>
      intro st acc r h
      cases st with
      | none => rfl
      | some cur => simp [tokenScanSt] at h
  | cons c cs ih =>
      intro st acc r h
      cases st with
      | none =>
          by_cases h1 : c = '['
          · rw [tokenScanSt, if_pos h1] at h
            rw [bracketDepth, if_pos h1]
            have := ih (some []) acc r h
            simpa [stDepth] using this
          · by_cases h2 : c = ']'
            · rw [tokenScanSt, if_neg h1, if_pos h2] at h
              simp at h
            · rw [tokenScanSt, if_neg h1, if_neg h2] at h
              rw [bracketDepth, if_neg h1, if_neg h2]
              exact ih none acc r h
      | some cur =>
          by_cases h1 : c = ']'
          · rw [tokenScanSt, if_pos h1] at h
            have hc1 : c ≠ '[' := by rw [h1]; decide
            rw [bracketDepth, if_neg hc1, if_pos h1,
              show stDepth (some cur) = 1 from rfl,
              if_neg (by norm_num : ¬ (1 : ℤ) ≤ 0),
              show (1 : ℤ) - 1 = 0 from by norm_num]
            have := ih none (acc ++ [String.mk cur]) r h
            simpa [stDepth] using this
          · by_cases h2 : c = '['
            · rw [tokenScanSt, if_neg h1, if_pos h2] at h
              simp at h
            · rw [tokenScanSt, if_neg h1, if_neg h2] at h
              rw [bracketDepth, if_neg h2, if_neg h1]
              exact ih (some (cur ++ [c])) acc r h

lemma balanced_of_scan {s : String} {r : List String}
    (h : tokenScanSt s.data none [] = some (none, r)) : BalancedBrackets s :=
  scan_bracketDepth s.data none [] r h

/-! ## Filter graph builder

The `filter_complex` f-string assembled inside `create_video`.  The
rendering of interpolated values (Python `str` of a float resp. an int
inside an f-string) is abstracted as the functions `fmt` and `fmtZ`; the
literal text is reproduced verbatim from the source. -/

/-- The `filter_complex` expression built in `create_video`
(`scripts/create_video.py`): scale, center-pad, motion-headroom pad,
time-varying crop with vibration and shake bursts, and color grading,
chained through the stream labels `[scaled]`, `[centered]`, `[padded]`,
`[shaken_vibrated]` into the single output label `[v]`. -/
def build_filter_graph {α : Type} (fmt : α → String) (fmtZ : ℤ → String)
    (p : EffectParams α) : String :=
  "[0:v]scale=1280:720:force_original_aspect_ratio=decrease[scaled];[scaled]pad=1280:720:(ow-iw)/2:(oh-ih)/2[centered];[centered]pad=1280+" ++
    fmtZ p.total_padding ++
    "*2:720+" ++
    fmtZ p.total_padding ++
    "*2:" ++
    fmtZ p.total_padding ++
    ":" ++
    fmtZ p.total_padding ++
    "[padded];[padded]crop=1280:720:'" ++
    fmtZ p.total_padding ++
    "+" ++
    fmt p.vibration_intensity ++
    "*sin(2*PI*t*" ++
    fmt p.vibration_freq ++
    ")+if(lt(mod(t," ++
    fmt p.shake_interval ++
    ")," ++
    fmt p.shake_duration ++
    ")," ++
    fmt p.vibration_intensity ++
    "*3*sin(20*PI*t),0)':'" ++
    fmtZ p.total_padding ++
    "+" ++
    fmt p.vibration_intensity ++
    "*cos(2*PI*t*" ++
    fmt p.vibration_freq ++
    ")+if(lt(mod(t+" ++
    fmt p.shake_interval ++
    "*0.3," ++
    fmt p.shake_interval ++
    ")," ++
    fmt p.shake_duration ++
    ")," ++
    fmt p.vibration_intensity ++
    "*3*cos(20*PI*t),0)'[shaken_vibrated];[shaken_vibrated]eq=brightness=" ++
    fmt p.brightness ++
    ":contrast=" ++
    fmt p.contrast ++
    ":saturation=" ++
    fmt p.saturation ++
    "[v]"


/-- **C2.** For every `EffectParameters` and every bracket-free rendering
of the interpolated numbers, the filter-graph string produced by
`build_filter_graph` has balanced brackets; its bracket-delimited stream
labels are exactly `0:v, scaled, scaled, centered, centered, padded,
padded, shaken_vibrated, shaken_vibrated, v` in order (each intermediate
label produced once and consumed once, and `v` — the single final output
label — occurring exactly once); and the expression ends with the output
label `[v]`. -/
theorem claim_C2_filter_graph_valid (p : EffectParameters)
    (fmt : ℚ → String) (fmtZ : ℤ → String)
    (hf : ∀ q, BracketFree (fmt q)) (hz : ∀ n, BracketFree (fmtZ n)) :
    BalancedBrackets (build_filter_graph fmt fmtZ p) ∧
    streamLabels (build_filter_graph fmt fmtZ p) =
      some ["0:v", "scaled", "scaled", "centered", "centered", "padded", "padded", "shaken_vibrated", "shaken_vibrated", "v"] ∧
    String.data "[v]" <:+ (build_filter_graph fmt fmtZ p).data := by
  have hscan : tokenScanSt (build_filter_graph fmt fmtZ p).data none [] =
      some (none, ["0:v", "scaled", "scaled", "centered", "centered", "padded", "padded", "shaken_vibrated", "shaken_vibrated", "v"]) := by
    unfold build_filter_graph
    repeat rw [String.data_append]
    repeat rw [List.append_assoc]
    rw [tokenScanSt_append,
      show tokenScanSt (String.data "[0:v]scale=1280:720:force_original_aspect_ratio=decrease[scaled];[scaled]pad=1280:720:(ow-iw)/2:(oh-ih)/2[centered];[centered]pad=1280+") none [] = some (none, ["0:v", "scaled", "scaled", "centered", "centered"]) from by decide,
      Option.some_bind]
    rw [tokenScanSt_append, bracketFree_scan _ (hz p.total_padding), Option.some_bind]
    rw [tokenScanSt_append,
      show tokenScanSt (String.data "*2:720+") none ["0:v", "scaled", "scaled", "centered", "centered"] = some (none, ["0:v", "scaled", "scaled", "centered", "centered"]) from by decide,
      Option.some_bind]
    rw [tokenScanSt_append, bracketFree_scan _ (hz p.total_padding), Option.some_bind]
    rw [tokenScanSt_append,
      show tokenScanSt (String.data "*2:") none ["0:v", "scaled", "scaled", "centered", "centered"] = some (none, ["0:v", "scaled", "scaled", "centered", "centered"]) from by decide,
      Option.some_bind]
    rw [tokenScanSt_append, bracketFree_scan _ (hz p.total_padding), Option.some_bind]
    rw [tokenScanSt_append,
      show tokenScanSt (String.data ":") none ["0:v", "scaled", "scaled", "centered", "centered"] = some (none, ["0:v", "scaled", "scaled", "centered", "centered"]) from by decide,
      Option.some_bind]
    rw [tokenScanSt_append, bracketFree_scan _ (hz p.total_padding), Option.some_bind]
    rw [tokenScanSt_append,
      show tokenScanSt (String.data "[padded];[padded]crop=1280:720:'") none ["0:v", "scaled", "scaled", "centered", "centered"] = some (none, ["0:v", "scaled", "scaled", "centered", "centered", "padded", "padded"]) from by decide,
      Option.some_bind]
    rw [tokenScanSt_append, bracketFree_scan _ (hz p.total_padding), Option.some_bind]
    rw [tokenScanSt_append,
      show tokenScanSt (String.data "+") none ["0:v", "scaled", "scaled", "centered", "centered", "padded", "padded"] = some (none, ["0:v", "scaled", "scaled", "centered", "centered", "padded", "padded"]) from by decide,
      Option.some_bind]
    rw [tokenScanSt_append, bracketFree_scan _ (hf p.vibration_intensity), Option.some_bind]
    rw [tokenScanSt_append,
      show tokenScanSt (String.data "*sin(2*PI*t*") none ["0:v", "scaled", "scaled", "centered", "centered", "padded", "padded"] = some (none, ["0:v", "scaled", "scaled", "centered", "centered", "padded", "padded"]) from by decide,
      Option.some_bind]
    rw [tokenScanSt_append, bracketFree_scan _ (hf p.vibration_freq), Option.some_bind]
    rw [tokenScanSt_append,
      show tokenScanSt (String.data ")+if(lt(mod(t,") none ["0:v", "scaled", "scaled", "centered", "centered", "padded", "padded"] = some (none, ["0:v", "scaled", "scaled", "centered", "centered", "padded", "padded"]) from by decide,
      Option.some_bind]
    rw [tokenScanSt_append, bracketFree_scan _ (hf p.shake_interval), Option.some_bind]
    rw [tokenScanSt_append,
      show tokenScanSt (String.data "),") none ["0:v", "scaled", "scaled", "centered", "centered", "padded", "padded"] = some (none, ["0:v", "scaled", "scaled", "centered", "centered", "padded", "padded"]) from by decide,
      Option.some_bind]
    rw [tokenScanSt_append, bracketFree_scan _ (hf p.shake_duration), Option.some_bind]
    rw [tokenScanSt_append,
      show tokenScanSt (String.data "),") none ["0:v", "scaled", "scaled", "centered", "centered", "padded", "padded"] = some (none, ["0:v", "scaled", "scaled", "centered", "centered", "padded", "padded"]) from by decide,
      Option.some_bind]
    rw [tokenScanSt_append, bracketFree_scan _ (hf p.vibration_intensity), Option.some_bind]
    rw [tokenScanSt_append,
      show tokenScanSt (String.data "*3*sin(20*PI*t),0)':'") none ["0:v", "scaled", "scaled", "centered", "centered", "padded", "padded"] = some (none, ["0:v", "scaled", "scaled", "centered", "centered", "padded", "padded"]) from by decide,
      Option.some_bind]
    rw [tokenScanSt_append, bracketFree_scan _ (hz p.total_padding), Option.some_bind]
    rw [tokenScanSt_append,
      show tokenScanSt (String.data "+") none ["0:v", "scaled", "scaled", "centered", "centered", "padded", "padded"] = some (none, ["0:v", "scaled", "scaled", "centered", "centered", "padded", "padded"]) from by decide,
      Option.some_bind]
    rw [tokenScanSt_append, bracketFree_scan _ (hf p.vibration_intensity), Option.some_bind]
    rw [tokenScanSt_append,
      show tokenScanSt (String.data "*cos(2*PI*t*") none ["0:v", "scaled", "scaled", "centered", "centered", "padded", "padded"] = some (none, ["0:v", "scaled", "scaled", "centered", "centered", "padded", "padded"]) from by decide,
      Option.some_bind]
    rw [tokenScanSt_append, bracketFree_scan _ (hf p.vibration_freq), Option.some_bind]
    rw [tokenScanSt_append,
      show tokenScanSt (String.data ")+if(lt(mod(t+") none ["0:v", "scaled", "scaled", "centered", "centered", "padded", "padded"] = some (none, ["0:v", "scaled", "scaled", "centered", "centered", "padded", "padded"]) from by decide,
      Option.some_bind]
    rw [tokenScanSt_append, bracketFree_scan _ (hf p.shake_interval), Option.some_bind]
    rw [tokenScanSt_append,
      show tokenScanSt (String.data "*0.3,") none ["0:v", "scaled", "scaled", "centered", "centered", "padded", "padded"] = some (none, ["0:v", "scaled", "scaled", "centered", "centered", "padded", "padded"]) from by decide,
      Option.some_bind]
    rw [tokenScanSt_append, bracketFree_scan _ (hf p.shake_interval), Option.some_bind]
    rw [tokenScanSt_append,
      show tokenScanSt (String.data "),") none ["0:v", "scaled", "scaled", "centered", "centered", "padded", "padded"] = some (none, ["0:v", "scaled", "scaled", "centered", "centered", "padded", "padded"]) from by decide,
      Option.some_bind]
    rw [tokenScanSt_append, bracketFree_scan _ (hf p.shake_duration), Option.some_bind]
    rw [tokenScanSt_append,
      show tokenScanSt (String.data "),") none ["0:v", "scaled", "scaled", "centered", "centered", "padded", "padded"] = some (none, ["0:v", "scaled", "scaled", "centered", "centered", "padded", "padded"]) from by decide,
      Option.some_bind]
    rw [tokenScanSt_append, bracketFree_scan _ (hf p.vibration_intensity), Option.some_bind]
    rw [tokenScanSt_append,
      show tokenScanSt (String.data "*3*cos(20*PI*t),0)'[shaken_vibrated];[shaken_vibrated]eq=brightness=") none ["0:v", "scaled", "scaled", "centered", "centered", "padded", "padded"] = some (none, ["0:v", "scaled", "scaled", "centered", "centered", "padded", "padded", "shaken_vibrated", "shaken_vibrated"]) from by decide,
      Option.some_bind]
    rw [tokenScanSt_append, bracketFree_scan _ (hf p.brightness), Option.some_bind]
    rw [tokenScanSt_append,
      show tokenScanSt (String.data ":contrast=") none ["0:v", "scaled", "scaled", "centered", "centered", "padded", "padded", "shaken_vibrated", "shaken_vibrated"] = some (none, ["0:v", "scaled", "scaled", "centered", "centered", "padded", "padded", "shaken_vibrated", "shaken_vibrated"]) from by decide,
      Option.some_bind]
    rw [tokenScanSt_append, bracketFree_scan _ (hf p.contrast), Option.some_bind]
    rw [tokenScanSt_append,
      show tokenScanSt (String.data ":saturation=") none ["0:v", "scaled", "scaled", "centered", "centered", "padded", "padded", "shaken_vibrated", "shaken_vibrated"] = some (none, ["0:v", "scaled", "scaled", "centered", "centered", "padded", "padded", "shaken_vibrated", "shaken_vibrated"]) from by decide,
      Option.some_bind]
    rw [tokenScanSt_append, bracketFree_scan _ (hf p.saturation), Option.some_bind]
    exact show tokenScanSt (String.data "[v]") none ["0:v", "scaled", "scaled", "centered", "centered", "padded", "padded", "shaken_vibrated", "shaken_vibrated"] = some (none, ["0:v", "scaled", "scaled", "centered", "centered", "padded", "padded", "shaken_vibrated", "shaken_vibrated", "v"]) from by decide
  refine ⟨balanced_of_scan hscan, ?_, ?_⟩
  · rw [streamLabels, hscan]
  · unfold build_filter_graph
    repeat rw [String.data_append]
    repeat rw [List.append_assoc]
    exact suffix_append_right _ (suffix_append_right _ (suffix_append_right _ (suffix_append_right _ (suffix_append_right _ (suffix_append_right _ (suffix_append_right _ (suffix_append_right _ (suffix_append_right _ (suffix_append_right _ (suffix_append_right _ (suffix_append_right _ (suffix_append_right _ (suffix_append_right _ (suffix_append_right _ (suffix_append_right _ (suffix_append_right _ (suffix_append_right _ (suffix_append_right _ (suffix_append_right _ (suffix_append_right _ (suffix_append_right _ (suffix_append_right _ (suffix_append_right _ (suffix_append_right _ (suffix_append_right _ (suffix_append_right _ (suffix_append_right _ (suffix_append_right _ (suffix_append_right _ (suffix_append_right _ (suffix_append_right _ (suffix_append_right _ (suffix_append_right _ (suffix_append_right _ (suffix_append_right _ (suffix_append_right _ (suffix_append_right _ (suffix_append_right _ (suffix_append_right _ (List.suffix_refl _))))))))))))))))))))))))))))))))))))))))


/-- Witness for C2: the claim instantiated at the parameters of seed 0
and a concrete bracket-free rendering. -/
theorem claim_C2_filter_graph_valid_witness :
    BalancedBrackets (build_filter_graph (fun _ : ℚ => "1.0") (fun _ : ℤ => "5")
      (calculate_effects 0)) ∧
    streamLabels (build_filter_graph (fun _ : ℚ => "1.0") (fun _ : ℤ => "5")
      (calculate_effects 0)) =
      some ["0:v", "scaled", "scaled", "centered", "centered", "padded", "padded", "shaken_vibrated", "shaken_vibrated", "v"] ∧
    String.data "[v]" <:+ (build_filter_graph (fun _ : ℚ => "1.0") (fun _ : ℤ => "5")
      (calculate_effects 0)).data :=
  claim_C2_filter_graph_valid (calculate_effects 0) _ _
    (fun _ => by decide) (fun _ => by decide)


/-- **C5 (amended).** `build_filter_graph` performs no validation at all:
it is a total function for every value type and every rendering —
including renderings of non-finite floats — and the rendering of every
field occurs verbatim inside the returned expression (so a malformed
value is silently interpolated rather than rejected). -/
theorem claim_C5_no_validation {α : Type} (fmt : α → String) (fmtZ : ℤ → String)
    (p : EffectParams α) :
    (fmtZ p.total_padding).data <:+: (build_filter_graph fmt fmtZ p).data ∧
    (fmt p.vibration_intensity).data <:+: (build_filter_graph fmt fmtZ p).data ∧
    (fmt p.vibration_freq).data <:+: (build_filter_graph fmt fmtZ p).data ∧
    (fmt p.shake_interval).data <:+: (build_filter_graph fmt fmtZ p).data ∧
    (fmt p.shake_duration).data <:+: (build_filter_graph fmt fmtZ p).data ∧
    (fmt p.brightness).data <:+: (build_filter_graph fmt fmtZ p).data ∧
    (fmt p.contrast).data <:+: (build_filter_graph fmt fmtZ p).data ∧
    (fmt p.saturation).data <:+: (build_filter_graph fmt fmtZ p).data := by
  unfold build_filter_graph
  repeat rw [String.data_append]
  repeat rw [List.append_assoc]
  refine ⟨?_, ?_, ?_, ?_, ?_, ?_, ?_, ?_⟩
  · exact infix_append_right _ ((List.prefix_append _ _).isInfix)
  · exact infix_append_right _ (infix_append_right _ (infix_append_right _ (infix_append_right _ (infix_append_right _ (infix_append_right _ (infix_append_right _ (infix_append_right _ (infix_append_right _ (infix_append_right _ (infix_append_right _ ((List.prefix_append _ _).isInfix)))))))))))
  · exact infix_append_right _ (infix_append_right _ (infix_append_right _ (infix_append_right _ (infix_append_right _ (infix_append_right _ (infix_append_right _ (infix_append_right _ (infix_append_right _ (infix_append_right _ (infix_append_right _ (infix_append_right _ (infix_append_right _ ((List.prefix_append _ _).isInfix)))))))))))))
  · exact infix_append_right _ (infix_append_right _ (infix_append_right _ (infix_append_right _ (infix_append_right _ (infix_append_right _ (infix_append_right _ (infix_append_right _ (infix_append_right _ (infix_append_right _ (infix_append_right _ (infix_append_right _ (infix_append_right _ (infix_append_right _ (infix_append_right _ ((List.prefix_append _ _).isInfix)))))))))))))))
  · exact infix_append_right _ (infix_append_right _ (infix_append_right _ (infix_append_right _ (infix_append_right _ (infix_append_right _ (infix_append_right _ (infix_append_right _ (infix_append_right _ (infix_append_right _ (infix_append_right _ (infix_append_right _ (infix_append_right _ (infix_append_right _ (infix_append_right _ (infix_append_right _ (infix_append_right _ ((List.prefix_append _ _).isInfix)))))))))))))))))
  · exact infix_append_right _ (infix_append_right _ (infix_append_right _ (infix_append_right _ (infix_append_right _ (infix_append_right _ (infix_append_right _ (infix_append_right _ (infix_append_right _ (infix_append_right _ (infix_append_right _ (infix_append_right _ (infix_append_right _ (infix_append_right _ (infix_append_right _ (infix_append_right _ (infix_append_right _ (infix_append_right _ (infix_append_right _ (infix_append_right _ (infix_append_right _ (infix_append_right _ (infix_append_right _ (infix_append_right _ (infix_append_right _ (infix_append_right _ (infix_append_right _ (infix_append_right _ (infix_append_right _ (infix_append_right _ (infix_append_right _ (infix_append_right _ (infix_append_right _ (infix_append_right _ (infix_append_right _ ((List.prefix_append _ _).isInfix)))))))))))))))))))))))))))))))))))
  · exact infix_append_right _ (infix_append_right _ (infix_append_right _ (infix_append_right _ (infix_append_right _ (infix_append_right _ (infix_append_right _ (infix_append_right _ (infix_append_right _ (infix_append_right _ (infix_append_right _ (infix_append_right _ (infix_append_right _ (infix_append_right _ (infix_append_right _ (infix_append_right _ (infix_append_right _ (infix_append_right _ (infix_append_right _ (infix_append_right _ (infix_append_right _ (infix_append_right _ (infix_append_right _ (infix_append_right _ (infix_append_right _ (infix_append_right _ (infix_append_right _ (infix_append_right _ (infix_append_right _ (infix_append_right _ (infix_append_right _ (infix_append_right _ (infix_append_right _ (infix_append_right _ (infix_append_right _ (infix_append_right _ (infix_append_right _ ((List.prefix_append _ _).isInfix)))))))))))))))))))))))))))))))))))))
  · exact infix_append_right _ (infix_append_right _ (infix_append_right _ (infix_append_right _ (infix_append_right _ (infix_append_right _ (infix_append_right _ (infix_append_right _ (infix_append_right _ (infix_append_right _ (infix_append_right _ (infix_append_right _ (infix_append_right _ (infix_append_right _ (infix_append_right _ (infix_append_right _ (infix_append_right _ (infix_append_right _ (infix_append_right _ (infix_append_right _ (infix_append_right _ (infix_append_right _ (infix_append_right _ (infix_append_right _ (infix_append_right _ (infix_append_right _ (infix_append_right _ (infix_append_right _ (infix_append_right _ (infix_append_right _ (infix_append_right _ (infix_append_right _ (infix_append_right _ (infix_append_right _ (infix_append_right _ (infix_append_right _ (infix_append_right _ (infix_append_right _ (infix_append_right _ ((List.prefix_append _ _).isInfix)))))))))))))))))))))))))))))))))))))))


/-! ## Malformed (non-finite) parameter values

Python floats include the non-finite values `nan`, `inf` and `-inf`; an
f-string renders them as the strings `nan`, `inf` and `-inf`.  The source
performs no validation before interpolating the effect values, so a
non-finite field is interpolated verbatim. -/

/-- Digits of `n` (most significant first), with structural fuel. -/
def natStrAux : ℕ → ℕ → List Char
  | 0, _ => []
  | fuel + 1, n =>
    if n = 0 then []
    else natStrAux fuel (n / 10) ++ [hexChars.getD (n % 10) '0']

/-- Python `str` of a natural number. -/
def natStr (n : ℕ) : String :=
  if n = 0 then "0" else String.mk (natStrAux (n + 1) n)

/-- Python `str` of an integer. -/
def intStr (n : ℤ) : String :=
  if n < 0 then "-" ++ natStr n.natAbs else natStr n.natAbs

/-- A Python float value as it reaches the f-string: a finite value
(exact rational) or one of the non-finite floats. -/
inductive PyFloat where
  | finite (q : ℚ)
  | inf
  | ninf
  | nan
  deriving Repr, DecidableEq

/-- Rendering of a `PyFloat`: the non-finite values render as `nan`,
`inf` and `-inf` exactly as Python's `str` does; finite values use a
stand-in exact rendering `num/den` (the claims about malformed values
only concern the non-finite cases). -/
def pyFloatRepr : PyFloat → String
  | .finite q => intStr q.num ++ "/" ++ natStr q.den
  | .inf => "inf"
  | .ninf => "-inf"
  | .nan => "nan"

/-- A malformed parameter set: every float field is `nan`. -/
def nanEffects : EffectParams PyFloat :=
  { vibration_intensity := .nan, vibration_freq := .nan, shake_interval := .nan,
    shake_duration := .nan, brightness := .nan, contrast := .nan, saturation := .nan,
    total_padding := 5 }

set_option maxRecDepth 4096 in
/-- **C5 (counterexample).** Given malformed `EffectParameters` (every
float field the non-finite value `nan`), `build_filter_graph` does not
fail fast with an error: it returns normally, and the returned expression
is the silently malformed string below, containing the interpolated text
`nan`. -/
theorem claim_C5_counterexample :
    build_filter_graph pyFloatRepr intStr nanEffects =
      "[0:v]scale=1280:720:force_original_aspect_ratio=decrease[scaled];[scaled]pad=1280:720:(ow-iw)/2:(oh-ih)/2[centered];[centered]pad=1280+5*2:720+5*2:5:5[padded];[padded]crop=1280:720:'5+nan*sin(2*PI*t*nan)+if(lt(mod(t,nan),nan),nan*3*sin(20*PI*t),0)':'5+nan*cos(2*PI*t*nan)+if(lt(mod(t+nan*0.3,nan),nan),nan*3*cos(20*PI*t),0)'[shaken_vibrated];[shaken_vibrated]eq=brightness=nan:contrast=nan:saturation=nan[v]" ∧
    String.data "nan" <:+: (build_filter_graph pyFloatRepr intStr nanEffects).data := by
  constructor
  · decide
  · decide

/-! ## Real-valued semantics of the time-varying crop expressions

The crop stage of the filter string positions the viewport at
`x = {tp}+{vi}*sin(2*PI*t*{vf})+if(lt(mod(t,{si}),{sd}),{vi}*3*sin(20*PI*t),0)` and
`y = {tp}+{vi}*cos(2*PI*t*{vf})+if(lt(mod(t+{si}*0.3,{si}),{sd}),{vi}*3*cos(20*PI*t),0)`,
evaluated by the encoder in real arithmetic over the playback time `t`.
The following definitions are that expression's denotation over `ℝ`
(`mod` is C `fmod`, truncation toward zero). -/

/-- Truncation toward zero, as in C `trunc`. -/
noncomputable def rtrunc (x : ℝ) : ℤ := if 0 ≤ x then ⌊x⌋ else ⌈x⌉

/-- C `fmod(a, m)` — the `mod` of the filter-expression language. -/
noncomputable def fmod (a m : ℝ) : ℝ := a - m * rtrunc (a / m)

/-- The horizontal continuous-vibration term `{vi}*sin(2*PI*t*{vf})`. -/
noncomputable def hVibration (p : EffectParameters) (t : ℝ) : ℝ :=
  (p.vibration_intensity : ℝ) * Real.sin (2 * Real.pi * t * (p.vibration_freq : ℝ))

/-- The vertical continuous-vibration term `{vi}*cos(2*PI*t*{vf})`. -/
noncomputable def vVibration (p : EffectParameters) (t : ℝ) : ℝ :=
  (p.vibration_intensity : ℝ) * Real.cos (2 * Real.pi * t * (p.vibration_freq : ℝ))

/-- The horizontal burst-window test `lt(mod(t,{si}),{sd})`. -/
def HShakeWindow (p : EffectParameters) (t : ℝ) : Prop :=
  fmod t (p.shake_interval : ℝ) < (p.shake_duration : ℝ)

/-- The vertical burst-window test `lt(mod(t+{si}*0.3,{si}),{sd})`. -/
def VShakeWindow (p : EffectParameters) (t : ℝ) : Prop :=
  fmod (t + (p.shake_interval : ℝ) * 0.3) (p.shake_interval : ℝ) < (p.shake_duration : ℝ)

open Classical in
/-- The horizontal shake-burst term
`if(lt(mod(t,{si}),{sd}),{vi}*3*sin(20*PI*t),0)`. -/
noncomputable def hShake (p : EffectParameters) (t : ℝ) : ℝ :=
  if HShakeWindow p t then (p.vibration_intensity : ℝ) * 3 * Real.sin (20 * Real.pi * t) else 0

open Classical in
/-- The vertical shake-burst term
`if(lt(mod(t+{si}*0.3,{si}),{sd}),{vi}*3*cos(20*PI*t),0)`. -/
noncomputable def vShake (p : EffectParameters) (t : ℝ) : ℝ :=
  if VShakeWindow p t then (p.vibration_intensity : ℝ) * 3 * Real.cos (20 * Real.pi * t) else 0

/-- The crop-origin x coordinate of the time-varying crop stage. -/
noncomputable def cropX (p : EffectParameters) (t : ℝ) : ℝ :=
  (p.total_padding : ℝ) + hVibration p t + hShake p t

/-- The crop-origin y coordinate of the time-varying crop stage. -/
noncomputable def cropY (p : EffectParameters) (t : ℝ) : ℝ :=
  (p.total_padding : ℝ) + vVibration p t + vShake p t

lemma fmod_eq_floor (a m : ℝ) (ha : 0 ≤ a) (hm : 0 < m) :
    fmod a m = a - m * ⌊a / m⌋ := by
  rw [fmod, rtrunc, if_pos (div_nonneg ha hm.le)]

lemma fmod_nonneg (a m : ℝ) (ha : 0 ≤ a) (hm : 0 < m) : 0 ≤ fmod a m := by
  rw [fmod_eq_floor a m ha hm]
  have h1 : (⌊a / m⌋ : ℝ) ≤ a / m := Int.floor_le _
  have h2 : m * (⌊a / m⌋ : ℝ) ≤ m * (a / m) := by
    exact mul_le_mul_of_nonneg_left h1 hm.le
  have h3 : m * (a / m) = a := by field_simp
  linarith

lemma fmod_lt (a m : ℝ) (ha : 0 ≤ a) (hm : 0 < m) : fmod a m < m := by
  rw [fmod_eq_floor a m ha hm]
  have h1 : a / m < (⌊a / m⌋ : ℝ) + 1 := Int.lt_floor_add_one _
  have h2 : m * (a / m) < m * ((⌊a / m⌋ : ℝ) + 1) := by
    exact mul_lt_mul_of_pos_left h1 hm
  have h3 : m * (a / m) = a := by field_simp
  nlinarith

/-- Shifting by `c` keeps the same period index when `fmod t m + c < m`. -/
lemma fmod_add_of_lt (t m c : ℝ) (ht : 0 ≤ t) (hm : 0 < m) (hc : 0 ≤ c)
    (hrc : fmod t m + c < m) : fmod (t + c) m = fmod t m + c := by
  have hq : fmod t m = t - m * ⌊t / m⌋ := fmod_eq_floor t m ht hm
  have hr0 : 0 ≤ fmod t m := fmod_nonneg t m ht hm
  have harg : (t + c) / m = (⌊t / m⌋ : ℝ) + (fmod t m + c) / m := by
    rw [hq]
    field_simp
    ring
  have hfloor : ⌊(t + c) / m⌋ = ⌊t / m⌋ := by
    rw [harg, Int.floor_int_add]
    have h0 : ⌊(fmod t m + c) / m⌋ = 0 := by
      rw [Int.floor_eq_zero_iff]
      constructor
      · positivity
      · rw [div_lt_one hm]
        exact hrc
    omega
  rw [fmod, rtrunc, if_pos (div_nonneg (by linarith) hm.le), hfloor]
  rw [hq]
  ring

/-- The range facts needed on the `ℝ` side. -/
lemma effects_range_real (s : ℕ) :
    (0.5 : ℝ) ≤ ((calculate_effects s).vibration_intensity : ℝ) ∧
    ((calculate_effects s).vibration_intensity : ℝ) ≤ 1.4 ∧
    (8 : ℝ) ≤ ((calculate_effects s).shake_interval : ℝ) ∧
    ((calculate_effects s).shake_interval : ℝ) ≤ 17.9 ∧
    (0.1 : ℝ) ≤ ((calculate_effects s).shake_duration : ℝ) ∧
    ((calculate_effects s).shake_duration : ℝ) ≤ 0.24 := by
  obtain ⟨h1, h2, _, _, h5, h6, h7, h8, _⟩ := calculate_effects_in_range s
  refine ⟨?_, ?_, ?_, ?_, ?_, ?_⟩
  · have := (Rat.cast_le (K := ℝ)).mpr h1
    push_cast at this
    linarith
  · have := (Rat.cast_le (K := ℝ)).mpr h2
    push_cast at this
    linarith
  · have := (Rat.cast_le (K := ℝ)).mpr h5
    push_cast at this
    linarith
  · have := (Rat.cast_le (K := ℝ)).mpr h6
    push_cast at this
    linarith
  · have := (Rat.cast_le (K := ℝ)).mpr h7
    push_cast at this
    linarith
  · have := (Rat.cast_le (K := ℝ)).mpr h8
    push_cast at this
    linarith

lemma tp_ge_4vi_q (s : ℕ) :
    4 * (calculate_effects s).vibration_intensity + 2 / 5 ≤
      ((calculate_effects s).total_padding : ℚ) := by
  rw [ce_total_padding_eq, ce_vibration_intensity]
  rcases le_or_lt (s % 10) 4 with hk | hk
  · rw [if_pos hk]
    have hc : ((s % 10 : ℕ) : ℚ) ≤ 4 := by exact_mod_cast hk
    push_cast
    linarith
  · rw [if_neg (by omega)]
    have hc2 : ((s % 10 : ℕ) : ℚ) ≤ 9 := modq_le s 10 9 (by norm_num) (by norm_num)
    push_cast
    linarith

lemma tp_ge_4vi (s : ℕ) :
    4 * ((calculate_effects s).vibration_intensity : ℝ) + 0.4 ≤
      ((calculate_effects s).total_padding : ℝ) := by
  have := (Rat.cast_le (K := ℝ)).mpr (tp_ge_4vi_q s)
  push_cast at this
  linarith

/-- **C3.** For every non-negative integer seed and every playback time
`t ≥ 0`, both crop-origin coordinates produced by the effect parameters —
`total_padding` plus the continuous vibration term (amplitude
`vibration_intensity`, bounded by `|sin|, |cos| ≤ 1`) plus, inside a
shake window, the burst term of amplitude `3 * vibration_intensity` —
are never negative. -/
theorem claim_C3_crop_origin_nonneg (seed : ℕ) (t : ℝ) (ht : 0 ≤ t) :
    0 ≤ cropX (calculate_effects seed) t ∧ 0 ≤ cropY (calculate_effects seed) t := by
  obtain ⟨hvi1, hvi2, _, _, _, _⟩ := effects_range_real seed
  have htp := tp_ge_4vi seed
  have hvi0 : (0 : ℝ) ≤ ((calculate_effects seed).vibration_intensity : ℝ) := by linarith
  constructor
  · rw [cropX, hVibration, hShake]
    have hs1 := Real.neg_one_le_sin (2 * Real.pi * t * ((calculate_effects seed).vibration_freq : ℝ))
    have h1 : ((calculate_effects seed).vibration_intensity : ℝ) * (-1) ≤
        ((calculate_effects seed).vibration_intensity : ℝ) *
          Real.sin (2 * Real.pi * t * ((calculate_effects seed).vibration_freq : ℝ)) :=
      mul_le_mul_of_nonneg_left hs1 hvi0
    by_cases hw : HShakeWindow (calculate_effects seed) t
    · rw [if_pos hw]
      have hs2 := Real.neg_one_le_sin (20 * Real.pi * t)
      have h2 : ((calculate_effects seed).vibration_intensity : ℝ) * 3 * (-1) ≤
          ((calculate_effects seed).vibration_intensity : ℝ) * 3 * Real.sin (20 * Real.pi * t) :=
        mul_le_mul_of_nonneg_left hs2 (by linarith)
      linarith
    · rw [if_neg hw]
      linarith
  · rw [cropY, vVibration, vShake]
    have hs1 := Real.neg_one_le_cos (2 * Real.pi * t * ((calculate_effects seed).vibration_freq : ℝ))
    have h1 : ((calculate_effects seed).vibration_intensity : ℝ) * (-1) ≤
        ((calculate_effects seed).vibration_intensity : ℝ) *
          Real.cos (2 * Real.pi * t * ((calculate_effects seed).vibration_freq : ℝ)) :=
      mul_le_mul_of_nonneg_left hs1 hvi0
    by_cases hw : VShakeWindow (calculate_effects seed) t
    · rw [if_pos hw]
      have hs2 := Real.neg_one_le_cos (20 * Real.pi * t)
      have h2 : ((calculate_effects seed).vibration_intensity : ℝ) * 3 * (-1) ≤
          ((calculate_effects seed).vibration_intensity : ℝ) * 3 * Real.cos (20 * Real.pi * t) :=
        mul_le_mul_of_nonneg_left hs2 (by linarith)
      linarith
    · rw [if_neg hw]
      linarith

/-- **C7.** The horizontal burst is active exactly during windows where
`mod(t, shake_interval) < shake_duration` and the vertical burst uses the
same test phase-shifted by `0.3 * shake_interval`; since
`0.3 * shake_interval` (at least 2.4 s) always exceeds `shake_duration`
(at most 0.24 s), the horizontal and vertical shake windows never
coincide: for every seed and every `t ≥ 0`, not both window predicates
hold. -/
theorem claim_C7_shake_windows_disjoint (seed : ℕ) (t : ℝ) (ht : 0 ≤ t) :
    (calculate_effects seed).shake_duration < 0.3 * (calculate_effects seed).shake_interval ∧
    ¬(HShakeWindow (calculate_effects seed) t ∧ VShakeWindow (calculate_effects seed) t) := by
  obtain ⟨_, _, hsi1, hsi2, hsd1, hsd2⟩ := effects_range_real seed
  obtain ⟨_, _, _, _, hq5, _, _, hq8, _⟩ := calculate_effects_in_range seed
  constructor
  · linarith
  · rintro ⟨hH, hV⟩
    rw [HShakeWindow] at hH
    rw [VShakeWindow] at hV
    have hm : (0 : ℝ) < ((calculate_effects seed).shake_interval : ℝ) := by linarith
    have hr0 : 0 ≤ fmod t ((calculate_effects seed).shake_interval : ℝ) :=
      fmod_nonneg t _ ht hm
    have key : fmod (t + ((calculate_effects seed).shake_interval : ℝ) * 0.3)
        ((calculate_effects seed).shake_interval : ℝ) =
        fmod t ((calculate_effects seed).shake_interval : ℝ) +
          ((calculate_effects seed).shake_interval : ℝ) * 0.3 := by
      apply fmod_add_of_lt t _ _ ht hm (by linarith)
      linarith
    rw [key] at hV
    linarith

/-- **C8.** The horizontal continuous-vibration term is
`vibration_intensity * sin(2π·t·vibration_freq)` and the vertical term is
the `cos` of the identical argument with the same amplitude, so the two
terms differ by exactly a quarter-period: the vertical term at `t` equals
the horizontal term at `t + 1/(4·vibration_freq)`. -/
theorem claim_C8_quadrature (seed : ℕ) (t : ℝ) :
    vVibration (calculate_effects seed) t =
      hVibration (calculate_effects seed)
        (t + 1 / (4 * ((calculate_effects seed).vibration_freq : ℝ))) := by
  have hq := (calculate_effects_in_range seed).2.2.1
  have hf : (0 : ℝ) < ((calculate_effects seed).vibration_freq : ℝ) := by
    have := (Rat.cast_le (K := ℝ)).mpr hq
    push_cast at this
    linarith
  rw [hVibration, vVibration]
  have harg : 2 * Real.pi * (t + 1 / (4 * ((calculate_effects seed).vibration_freq : ℝ))) *
      ((calculate_effects seed).vibration_freq : ℝ) =
      2 * Real.pi * t * ((calculate_effects seed).vibration_freq : ℝ) + Real.pi / 2 := by
    field_simp
    ring
  rw [harg, Real.sin_add_pi_div_two]

/-- Witness for C3: the crop origin at seed 0 and time 0 is non-negative. -/
theorem claim_C3_crop_origin_nonneg_witness :
    0 ≤ cropX (calculate_effects 0) 0 ∧ 0 ≤ cropY (calculate_effects 0) 0 :=
  claim_C3_crop_origin_nonneg 0 0 (le_refl 0)

/-- Witness for C7: at seed 0 and time 0 the two shake windows do not
coincide and the phase shift exceeds the burst duration. -/
theorem claim_C7_shake_windows_disjoint_witness :
    (calculate_effects 0).shake_duration < 0.3 * (calculate_effects 0).shake_interval ∧
    ¬(HShakeWindow (calculate_effects 0) 0 ∧ VShakeWindow (calculate_effects 0) 0) :=
  claim_C7_shake_windows_disjoint 0 0 (le_refl 0)
